import Mathlib

/-
Shallow embedding of tensorflow/tools/ci_build/windows/cpu/pip/validate_wheel_size.py.

The script validates that wheel files are at most a size limit given in MB.
Filesystem state is modelled explicitly: the path argument of `main` resolves
to a `Target` (an existing file with a byte size, an existing directory with
its immediate child files, or nothing).  Console output is modelled as the
list of printed lines, and a raised exception as an `Err` value; `main`
returns both in a `RunResult`.  String primitives (decimal rendering, suffix
tests, substring tests) are implemented over character lists so that every
definition evaluates inside the kernel.
-/

namespace ValidateWheelSize

/-- `startsWithChars hay needle`: `needle` is a leading run of `hay`. -/
def startsWithChars : List Char → List Char → Bool
  | _, [] => true
  | [], _ :: _ => false
  | a :: as, b :: bs => a = b && startsWithChars as bs

/-- `hasSubChars hay needle`: `needle` occurs contiguously inside `hay`. -/
def hasSubChars : List Char → List Char → Bool
  | [], needle => startsWithChars [] needle
  | h :: t, needle => startsWithChars (h :: t) needle || hasSubChars t needle

/-- `needle` occurs as a contiguous substring of `hay`. -/
def strContains (hay needle : String) : Bool := hasSubChars hay.data needle.data

/-- `hay` ends with `needle`. -/
def endsWithChars (hay needle : List Char) : Bool :=
  startsWithChars hay.reverse needle.reverse

/-- The character of a decimal digit. -/
def digitChar (d : Nat) : Char :=
  if d = 0 then '0' else if d = 1 then '1' else if d = 2 then '2'
  else if d = 3 then '3' else if d = 4 then '4' else if d = 5 then '5'
  else if d = 6 then '6' else if d = 7 then '7' else if d = 8 then '8'
  else '9'

/-- Decimal digits of `n`, most significant first, accumulated into `acc`;
`fuel` bounds the recursion and exceeds the digit count. -/
def natDigitsAux : Nat → Nat → List Char → List Char
  | 0, _, acc => acc
  | fuel + 1, n, acc =>
    if n < 10 then digitChar n :: acc
    else natDigitsAux fuel (n / 10) (digitChar (n % 10) :: acc)

/-- Decimal rendering of a natural number. -/
def natToStr (n : Nat) : String := String.mk (natDigitsAux (n + 1) n [])

/-- Decimal rendering of an integer, as Python's `str` renders an `int`. -/
def intToStr : Int → String
  | Int.ofNat n => natToStr n
  | Int.negSucc n => "-" ++ natToStr (n + 1)

/-- An immediate child file of a directory: its name and byte size. -/
structure FileEnt where
  name : String
  size : Nat
deriving DecidableEq, Repr

/-- What the path handed to `main` resolves to on the filesystem. -/
inductive Target where
  | file (size : Nat)
  | dir (children : List FileEnt)
  | missing
deriving DecidableEq, Repr

/-- The exceptions `main` can raise: `FileSizeError(filepath, limit)` from
`_validate_file_size`, or a `ValueError` with a message. -/
inductive Err where
  | fileSizeError (filepath : String) (limit : Int)
  | valueError (msg : String)
deriving DecidableEq, Repr

/-- Message of the `FileSizeError` exception (validate_wheel_size.py line 23):
`The wheel file {filepath} is over the limit {limit}MB`. -/
def fileSizeErrorMsg (filepath : String) (limit : Int) : String :=
  "The wheel file " ++ filepath ++ " is over the limit " ++ intToStr limit ++ "MB"

/-- The message carried by an exception value. -/
def Err.message : Err → String
  | Err.fileSizeError fp limit => fileSizeErrorMsg fp limit
  | Err.valueError m => m

/-- Success line printed by `_validate_file_size` (line 93). -/
def successMsg (path : String) (limit : Int) : String :=
  "The wheel file " ++ path ++ " is within the limit " ++ intToStr limit ++ "MB."

/-- Clamp notice printed when the limit is negative (line 142). -/
def clampMsg (limit : Int) : String :=
  "The limit " ++ intToStr limit ++ " is smaller than 0, it will be treated as 0."

/-- `ValueError` message when a directory holds no wheel file (line 153). -/
def noWheelMsg (path : String) : String :=
  "There is no wheel file exist in the path " ++ path ++ "!"

/-- `ValueError` message when the path is neither a wheel file nor a
directory (line 155).  Note the message is a fixed string. -/
def invalidPathMsg : String :=
  "The wheel path or wheel files directory not exist!"

/-- Index of the last occurrence of a dot in a character list, starting the
count at `i`; `none` when there is no dot. -/
def lastDotIdxAux : List Char → Nat → Option Nat
  | [], _ => none
  | c :: rest, i =>
    match lastDotIdxAux rest (i + 1) with
    | some j => some j
    | none => if c = '.' then some i else none

/-- `pathlib.PurePath.suffix` of a file name: the substring from the last dot
on, provided that dot is neither the first nor the last character; empty
otherwise.  Exact, case-preserving. -/
def py_suffix (name : String) : String :=
  let cs := name.data
  match lastDotIdxAux cs 0 with
  | some i => if 0 < i ∧ i < cs.length - 1 then String.mk (cs.drop i) else ""
  | none => ""

/-- Characters of the final component of a path: everything after the last
separator, dropping all earlier characters. -/
def basenameAux : List Char → List Char → List Char
  | [], acc => acc
  | c :: rest, acc =>
    if c = '/' then basenameAux rest [] else basenameAux rest (acc ++ [c])

/-- Final component of a path string (the `name` of a `pathlib.Path`), with
`/` as separator. -/
def basename (p : String) : String := String.mk (basenameAux p.data [])

/-- Whether a child name matches the glob pattern `*.whl` used at line 148:
`*` matches any (possibly empty) run of characters, so the pattern holds
exactly when the name ends with `.whl`. -/
def globMatchWhl (name : String) : Bool := endsWithChars name.data ".whl".data

/-- `_validate_file_size(path, limit)` (lines 62-93): raises
`FileSizeError(path, limit)` when the file's byte size exceeds
`limit * 1024 * 1024`, and otherwise prints one success line. -/
def validate_file_size (path : String) (size : Nat) (limit : Int) :
    Except Err String :=
  let limit_bytes := limit * 1024 * 1024
  if (size : Int) > limit_bytes then
    Except.error (Err.fileSizeError path limit)
  else
    Except.ok (successMsg path limit)

/-- Lines printed by a run together with the exception that aborted it, if
any. -/
structure RunResult where
  output : List String
  error : Option Err
deriving DecidableEq, Repr

/-- The `for wheel in wheels` loop of `main` (lines 150-151): validate each
wheel in enumeration order; the first `FileSizeError` aborts the loop and
nothing after it runs. -/
def validateLoop (dir : String) (limit : Int) : List FileEnt → RunResult
  | [] => ⟨[], none⟩
  | w :: rest =>
    match validate_file_size (dir ++ "/" ++ w.name) w.size limit with
    | Except.error e => ⟨[], some e⟩
    | Except.ok msg =>
      let r := validateLoop dir limit rest
      ⟨msg :: r.output, r.error⟩

/-- The dispatch of `main` after the limit has been clamped (lines 145-155):
a file with suffix `.whl` is validated directly; a directory has its
immediate `*.whl` children validated in order, or raises `ValueError` when
there are none; anything else raises `ValueError`. -/
def mainBody (p : String) (t : Target) (limit : Int) : RunResult :=
  match t with
  | Target.file size =>
    if py_suffix (basename p) = ".whl" then
      match validate_file_size p size limit with
      | Except.ok msg => ⟨[msg], none⟩
      | Except.error e => ⟨[], some e⟩
    else ⟨[], some (Err.valueError invalidPathMsg)⟩
  | Target.dir children =>
    let wheels := children.filter (fun c => globMatchWhl c.name)
    if wheels.isEmpty then ⟨[], some (Err.valueError (noWheelMsg p))⟩
    else validateLoop p limit wheels
  | Target.missing => ⟨[], some (Err.valueError invalidPathMsg)⟩

/-- `main(path, limit)` (lines 96-155): a negative limit prints the clamp
notice and is replaced by 0 before any validation; then dispatch on what the
path resolves to. -/
def main (p : String) (t : Target) (limit : Int) : RunResult :=
  if limit < 0 then
    let r := mainBody p t 0
    ⟨clampMsg limit :: r.output, r.error⟩
  else mainBody p t limit

/-- Default of the `--limit` / `-l` flag (parse_args, lines 49-54). -/
def defaultLimit : Int := 170

/-- Scan of the argument tokens for the first `--limit` / `-l` flag,
returning the token that follows it. -/
def findLimitArg : List String → Option String
  | [] => none
  | a :: rest =>
    if a = "--limit" ∨ a = "-l" then rest.head? else findLimitArg rest

/-- Digits of a decimal numeral accumulated into a value; `none` on any
non-digit character. -/
def parseNatAux : List Char → Nat → Option Nat
  | [], acc => some acc
  | c :: rest, acc =>
    if 48 ≤ c.toNat ∧ c.toNat ≤ 57 then
      parseNatAux rest (acc * 10 + (c.toNat - 48))
    else none

/-- Python's `int()` on a decimal string: an optional leading minus sign
followed by at least one digit; `none` models a parse failure. -/
def parseIntStr (s : String) : Option Int :=
  match s.data with
  | [] => none
  | '-' :: rest =>
    match rest with
    | [] => none
    | _ :: _ => (parseNatAux rest 0).map (fun n => -(n : Int))
  | c :: rest => (parseNatAux (c :: rest) 0).map (fun n => (n : Int))

/-- The limit produced by `parse_args` from the argument tokens: the value
after `--limit` / `-l` parsed as an integer (`type=int`), or the default 170
when the flag is absent; `none` models an argparse parse failure. -/
def parsedLimit (argv : List String) : Option Int :=
  match findLimitArg argv with
  | none => some defaultLimit
  | some v => parseIntStr v

/-- The directory of the spec's scenario: `a.whl` (1MB), `b.whl` (2MB),
`t.txt` (3MB), `0.whl` (0MB), in the enumeration order of the script's own
doctest fixture. -/
def scenarioDir : List FileEnt :=
  [⟨"a.whl", 1048576⟩, ⟨"b.whl", 2097152⟩, ⟨"t.txt", 3145728⟩, ⟨"0.whl", 0⟩]

theorem startsWithChars_append (b c : List Char) :
    startsWithChars (b ++ c) b = true := by
  induction b with
  | nil => simp [startsWithChars]
  | cons x xs ih => simp [startsWithChars, ih]

theorem hasSubChars_of_startsWith (hay needle : List Char)
    (h : startsWithChars hay needle = true) : hasSubChars hay needle = true := by
  cases hay with
  | nil => exact h
  | cons a as => simp [hasSubChars, h]

theorem hasSubChars_append_left (a hay needle : List Char)
    (h : hasSubChars hay needle = true) : hasSubChars (a ++ hay) needle = true := by
  induction a with
  | nil => simpa using h
  | cons x xs ih => simp [hasSubChars, ih]

theorem strContains_parts (hay a s b : String)
    (h : hay.data = a.data ++ (s.data ++ b.data)) : strContains hay s = true := by
  unfold strContains
  rw [h]
  exact hasSubChars_append_left _ _ _
    (hasSubChars_of_startsWith _ _ (startsWithChars_append _ _))

theorem successMsg_contains_path (p : String) (l : Int) :
    strContains (successMsg p l) p = true := by
  apply strContains_parts _ "The wheel file " p
    (" is within the limit " ++ intToStr l ++ "MB.")
  simp [successMsg, String.data_append]

theorem successMsg_contains_limit (p : String) (l : Int) :
    strContains (successMsg p l) (intToStr l) = true := by
  apply strContains_parts _ ("The wheel file " ++ p ++ " is within the limit ")
    (intToStr l) "MB."
  simp [successMsg, String.data_append]

theorem fileSizeErrorMsg_contains_path (p : String) (l : Int) :
    strContains (fileSizeErrorMsg p l) p = true := by
  apply strContains_parts _ "The wheel file " p
    (" is over the limit " ++ intToStr l ++ "MB")
  simp [fileSizeErrorMsg, String.data_append]

theorem fileSizeErrorMsg_contains_limit (p : String) (l : Int) :
    strContains (fileSizeErrorMsg p l) (intToStr l ++ "MB") = true := by
  apply strContains_parts _ ("The wheel file " ++ p ++ " is over the limit ")
    (intToStr l ++ "MB") ""
  simp [fileSizeErrorMsg, String.data_append]

theorem noWheelMsg_contains_path (p : String) :
    strContains (noWheelMsg p) p = true := by
  apply strContains_parts _ "There is no wheel file exist in the path " p "!"
  simp [noWheelMsg, String.data_append]

theorem main_nonneg (p : String) (t : Target) (limit : Int) (h : 0 ≤ limit) :
    main p t limit = mainBody p t limit := by
  unfold main
  rw [if_neg (not_lt.mpr h)]

theorem main_neg (p : String) (t : Target) (limit : Int) (h : limit < 0) :
    main p t limit =
      ⟨clampMsg limit :: (mainBody p t 0).output, (mainBody p t 0).error⟩ := by
  unfold main
  rw [if_pos h]

/-- Claim C1: an existing wheel file whose byte size is at most
`limit * 2^20`, validated with a non-negative limit, succeeds with exactly
one success line, and that line names the file and the limit.  Equality with
the byte limit is allowed since the source comparison is strict `>`. -/
theorem file_within_limit_succeeds (p : String) (size : Nat) (limit : Int)
    (hlim : 0 ≤ limit) (hsuf : py_suffix (basename p) = ".whl")
    (hsize : (size : Int) ≤ limit * 1024 * 1024) :
    main p (Target.file size) limit = ⟨[successMsg p limit], none⟩ ∧
    strContains (successMsg p limit) p = true ∧
    strContains (successMsg p limit) (intToStr limit) = true := by
  refine ⟨?_, successMsg_contains_path p limit, successMsg_contains_limit p limit⟩
  rw [main_nonneg p _ limit hlim]
  simp [mainBody, hsuf, validate_file_size, not_lt.mpr hsize]

theorem file_within_limit_succeeds_witness :
    main "a.whl" (Target.file 1048576) 1 = ⟨[successMsg "a.whl" 1], none⟩ ∧
    strContains (successMsg "a.whl" 1) "a.whl" = true ∧
    strContains (successMsg "a.whl" 1) (intToStr 1) = true :=
  file_within_limit_succeeds "a.whl" 1048576 1 (by decide) (by decide) (by decide)

/-- Claim C2: an existing wheel file whose byte size strictly exceeds
`limit * 2^20`, validated with a non-negative limit, raises
`FileSizeError(path, limit)` whose message names the file and the limit in
MB, and no success line is emitted. -/
theorem file_over_limit_fails (p : String) (size : Nat) (limit : Int)
    (hlim : 0 ≤ limit) (hsuf : py_suffix (basename p) = ".whl")
    (hsize : (size : Int) > limit * 1024 * 1024) :
    main p (Target.file size) limit = ⟨[], some (Err.fileSizeError p limit)⟩ ∧
    Err.message (Err.fileSizeError p limit) = fileSizeErrorMsg p limit ∧
    strContains (fileSizeErrorMsg p limit) p = true ∧
    strContains (fileSizeErrorMsg p limit) (intToStr limit ++ "MB") = true := by
  refine ⟨?_, rfl, fileSizeErrorMsg_contains_path p limit,
    fileSizeErrorMsg_contains_limit p limit⟩
  rw [main_nonneg p _ limit hlim]
  simp [mainBody, hsuf, validate_file_size, hsize]

theorem file_over_limit_fails_witness :
    main "b.whl" (Target.file 1048577) 1 =
      ⟨[], some (Err.fileSizeError "b.whl" 1)⟩ ∧
    Err.message (Err.fileSizeError "b.whl" 1) = fileSizeErrorMsg "b.whl" 1 ∧
    strContains (fileSizeErrorMsg "b.whl" 1) "b.whl" = true ∧
    strContains (fileSizeErrorMsg "b.whl" 1) (intToStr 1 ++ "MB") = true :=
  file_over_limit_fails "b.whl" 1048577 1 (by decide) (by decide) (by decide)

/-- Claim C3 counterexample: in the scenario directory at limit 2 the file
`b.whl` of exactly 2MB does NOT raise `FileSizeError`: the whole run raises
nothing and emits a success line for `b.whl`, because the source comparison
at line 90 is strict `>`. -/
theorem scenario_b_whl_passes :
    (main "d" (Target.dir scenarioDir) 2).error = none ∧
    successMsg "d/b.whl" 2 ∈ (main "d" (Target.dir scenarioDir) 2).output := by
  decide

/-- Claim C3 (amended): validating the scenario directory (`a.whl` 1MB,
`b.whl` 2MB, `t.txt` 3MB, `0.whl` 0MB) with limit 2 succeeds for `a.whl`,
`b.whl` and `0.whl` in enumeration order and ignores `t.txt` (wrong suffix);
no error is raised since no file strictly exceeds 2MB. -/
theorem scenario_run :
    main "d" (Target.dir scenarioDir) 2 =
      ⟨[successMsg "d/a.whl" 2, successMsg "d/b.whl" 2, successMsg "d/0.whl" 2],
       none⟩ := by
  decide

/-- Claim C4: for any negative limit, `main` prints the clamp notice first
and then behaves exactly as it would with limit 0, so the effective limit
for every subsequent size comparison is 0. -/
theorem negative_limit_clamped (p : String) (t : Target) (limit : Int)
    (h : limit < 0) :
    main p t limit =
      ⟨clampMsg limit :: (main p t 0).output, (main p t 0).error⟩ := by
  rw [main_nonneg p t 0 le_rfl]
  exact main_neg p t limit h

theorem negative_limit_clamped_witness :
    main "a.whl" (Target.file 0) (-1) =
      ⟨clampMsg (-1) :: (main "a.whl" (Target.file 0) 0).output,
       (main "a.whl" (Target.file 0) 0).error⟩ :=
  negative_limit_clamped "a.whl" (Target.file 0) (-1) (by decide)

/-- Claim C5 counterexample: for the missing path `nosuch` the run raises
`ValueError` with the fixed message of line 155, and that message does not
contain the offending path, so the error does not identify it. -/
theorem invalid_path_error_lacks_path :
    (main "nosuch" Target.missing 5).error =
      some (Err.valueError invalidPathMsg) ∧
    strContains invalidPathMsg "nosuch" = false := by
  decide

/-- Claim C5 (amended): for every path that is neither an existing `.whl`
file nor an existing directory, and a non-negative limit, `main` raises
`ValueError` with the fixed message `The wheel path or wheel files directory
not exist!` — which does not include the offending path — and prints
nothing. -/
theorem invalid_path_fails (p : String) (size : Nat) (limit : Int)
    (t : Target) (hlim : 0 ≤ limit)
    (ht : t = Target.missing ∨
      (t = Target.file size ∧ py_suffix (basename p) ≠ ".whl")) :
    main p t limit = ⟨[], some (Err.valueError invalidPathMsg)⟩ := by
  rw [main_nonneg p t limit hlim]
  rcases ht with h | ⟨h, hsuf⟩
  · rw [h]; rfl
  · rw [h]; simp [mainBody, hsuf]

theorem invalid_path_fails_witness :
    main "nosuch2" Target.missing 170 =
      ⟨[], some (Err.valueError invalidPathMsg)⟩ :=
  invalid_path_fails "nosuch2" 0 170 Target.missing (by decide) (Or.inl rfl)

theorem filter_whl_nil (children : List FileEnt)
    (h : ∀ c ∈ children, globMatchWhl c.name = false) :
    children.filter (fun c => globMatchWhl c.name) = [] := by
  induction children with
  | nil => rfl
  | cons c cs ih =>
    simp only [List.filter_cons, h c (by simp)]
    exact ih (fun x hx => h x (by simp [hx]))

/-- Claim C6: validating an existing directory none of whose immediate
children matches `*.whl` raises `ValueError` naming the directory; the only
possible output line is the clamp notice, so no success line is emitted.
Matching is over the directory's immediate children only: `Target.dir`
holds exactly the immediate children the non-recursive glob of line 148
enumerates. -/
theorem directory_without_wheels_fails (p : String) (children : List FileEnt)
    (limit : Int) (h : ∀ c ∈ children, globMatchWhl c.name = false) :
    main p (Target.dir children) limit =
      ⟨if limit < 0 then [clampMsg limit] else [],
       some (Err.valueError (noWheelMsg p))⟩ ∧
    strContains (noWheelMsg p) p = true := by
  refine ⟨?_, noWheelMsg_contains_path p⟩
  have hfil := filter_whl_nil children h
  by_cases hl : limit < 0
  · rw [main_neg p _ limit hl]
    simp [mainBody, hfil, hl]
  · rw [main_nonneg p _ limit (not_lt.mp hl)]
    simp [mainBody, hfil, hl]

theorem directory_without_wheels_fails_witness :
    main "d" (Target.dir [⟨"t.txt", 3145728⟩]) 2 =
      ⟨if (2 : Int) < 0 then [clampMsg 2] else [],
       some (Err.valueError (noWheelMsg "d"))⟩ ∧
    strContains (noWheelMsg "d") "d" = true :=
  directory_without_wheels_fails "d" [⟨"t.txt", 3145728⟩] 2 (by decide)

theorem validateLoop_first_failure (dir : String) (limit : Int) :
    ∀ pre : List FileEnt, ∀ bad : FileEnt, ∀ rest : List FileEnt,
    (∀ w ∈ pre, (w.size : Int) ≤ limit * 1024 * 1024) →
    (bad.size : Int) > limit * 1024 * 1024 →
    validateLoop dir limit (pre ++ bad :: rest) =
      ⟨pre.map (fun w => successMsg (dir ++ "/" ++ w.name) limit),
       some (Err.fileSizeError (dir ++ "/" ++ bad.name) limit)⟩ := by
  intro pre
  induction pre with
  | nil =>
    intro bad rest _ hbad
    simp [validateLoop, validate_file_size, hbad]
  | cons w ws ih =>
    intro bad rest hpre hbad
    have hw : (w.size : Int) ≤ limit * 1024 * 1024 := hpre w (by simp)
    simp [validateLoop, validate_file_size, not_lt.mpr hw,
      ih bad rest (fun x hx => hpre x (by simp [hx])) hbad]

theorem mainBody_dir_to_loop (p : String) (children : List FileEnt)
    (limit : Int) (wheels : List FileEnt)
    (hfil : children.filter (fun c => globMatchWhl c.name) = wheels)
    (hne : wheels.isEmpty = false) :
    mainBody p (Target.dir children) limit = validateLoop p limit wheels := by
  simp only [mainBody]
  rw [hfil, hne]
  rfl

/-- Claim C7: in a directory whose matching wheels split as
`pre ++ bad :: rest` with every file of `pre` within the limit and `bad`
over it, the run emits exactly the success lines of `pre` in enumeration
order and aborts with `bad`'s `FileSizeError`; no file of `rest` is
validated or reported. -/
theorem directory_stops_at_first_oversized (p : String)
    (children pre rest : List FileEnt) (bad : FileEnt) (limit : Int)
    (hlim : 0 ≤ limit)
    (hfil : children.filter (fun c => globMatchWhl c.name) = pre ++ bad :: rest)
    (hpre : ∀ w ∈ pre, (w.size : Int) ≤ limit * 1024 * 1024)
    (hbad : (bad.size : Int) > limit * 1024 * 1024) :
    main p (Target.dir children) limit =
      ⟨pre.map (fun w => successMsg (p ++ "/" ++ w.name) limit),
       some (Err.fileSizeError (p ++ "/" ++ bad.name) limit)⟩ := by
  rw [main_nonneg p _ limit hlim,
    mainBody_dir_to_loop p children limit _ hfil (by cases pre <;> rfl)]
  exact validateLoop_first_failure p limit pre bad rest hpre hbad

theorem directory_stops_at_first_oversized_witness :
    main "d" (Target.dir [⟨"a.whl", 0⟩, ⟨"big.whl", 3145728⟩, ⟨"c.whl", 0⟩]) 2 =
      ⟨[successMsg "d/a.whl" 2], some (Err.fileSizeError "d/big.whl" 2)⟩ :=
  directory_stops_at_first_oversized "d"
    [⟨"a.whl", 0⟩, ⟨"big.whl", 3145728⟩, ⟨"c.whl", 0⟩]
    [⟨"a.whl", 0⟩] [⟨"c.whl", 0⟩] ⟨"big.whl", 3145728⟩ 2
    (by decide) (by decide) (by decide) (by decide)

theorem findLimitArg_none : ∀ argv : List String,
    "--limit" ∉ argv → "-l" ∉ argv → findLimitArg argv = none := by
  intro argv
  induction argv with
  | nil => intro _ _; rfl
  | cons a rest ih =>
    intro h1 h2
    have ha1 : a ≠ "--limit" := fun hh => h1 (by simp [hh])
    have ha2 : a ≠ "-l" := fun hh => h2 (by simp [hh])
    simp only [findLimitArg, ha1, ha2, or_self, if_false, false_or]
    exact ih (fun hm => h1 (by simp [hm])) (fun hm => h2 (by simp [hm]))

/-- Claim C8: when the `--limit` / `-l` flag is absent from the argument
tokens the parsed limit is the default, which is 170; when the flag is given
with a following value (and the positional argument is not itself one of the
flag spellings), the value is parsed as a decimal integer. -/
theorem limit_flag_default_and_int (argv : List String) (p v : String)
    (h1 : "--limit" ∉ argv) (h2 : "-l" ∉ argv)
    (hp1 : p ≠ "--limit") (hp2 : p ≠ "-l") :
    parsedLimit argv = some 170 ∧
    defaultLimit = 170 ∧
    parsedLimit [p, "--limit", v] = parseIntStr v ∧
    parsedLimit [p, "-l", v] = parseIntStr v := by
  refine ⟨?_, rfl, ?_, ?_⟩
  · simp [parsedLimit, findLimitArg_none argv h1 h2, defaultLimit]
  · simp [parsedLimit, findLimitArg, hp1, hp2]
  · simp [parsedLimit, findLimitArg, hp1, hp2]

theorem limit_flag_default_and_int_witness :
    parsedLimit ["wheel.whl"] = some 170 ∧
    defaultLimit = 170 ∧
    parsedLimit ["wheel.whl", "--limit", "130"] = parseIntStr "130" ∧
    parsedLimit ["wheel.whl", "-l", "130"] = parseIntStr "130" :=
  limit_flag_default_and_int ["wheel.whl"] "wheel.whl" "130"
    (by decide) (by decide) (by decide) (by decide)

/-- Claim C9: the single-file suffix test is an exact, case-sensitive
comparison with `.whl`: `x.WHL` has suffix `.WHL` and a file whose whole
name is `.whl` has empty suffix, so neither is accepted and both fall
through to the invalid-path `ValueError`. -/
theorem suffix_check_exact_case_sensitive (size : Nat) (limit : Int)
    (hlim : 0 ≤ limit) :
    py_suffix (basename "x.WHL") = ".WHL" ∧
    py_suffix (basename ".whl") = "" ∧
    main "x.WHL" (Target.file size) limit =
      ⟨[], some (Err.valueError invalidPathMsg)⟩ ∧
    main ".whl" (Target.file size) limit =
      ⟨[], some (Err.valueError invalidPathMsg)⟩ := by
  have h1 : py_suffix (basename "x.WHL") ≠ ".whl" := by decide
  have h2 : py_suffix (basename ".whl") ≠ ".whl" := by decide
  refine ⟨by decide, by decide, ?_, ?_⟩
  · rw [main_nonneg _ _ limit hlim]
    simp [mainBody, h1]
  · rw [main_nonneg _ _ limit hlim]
    simp [mainBody, h2]

theorem suffix_check_exact_case_sensitive_witness :
    py_suffix (basename "x.WHL") = ".WHL" ∧
    py_suffix (basename ".whl") = "" ∧
    main "x.WHL" (Target.file 3145728) 170 =
      ⟨[], some (Err.valueError invalidPathMsg)⟩ ∧
    main ".whl" (Target.file 3145728) 170 =
      ⟨[], some (Err.valueError invalidPathMsg)⟩ :=
  suffix_check_exact_case_sensitive 3145728 170 (by decide)

theorem validateLoop_shape (dir : String) (limit : Int) :
    ∀ wheels : List FileEnt,
    (∀ msg ∈ (validateLoop dir limit wheels).output,
      ∃ fp, msg = successMsg fp limit) ∧
    (∀ e, (validateLoop dir limit wheels).error = some e →
      ∃ fp, e = Err.fileSizeError fp limit) := by
  intro wheels
  induction wheels with
  | nil => exact ⟨by simp [validateLoop], by simp [validateLoop]⟩
  | cons w ws ih =>
    by_cases hw : (w.size : Int) > limit * 1024 * 1024
    · constructor
      · intro msg hmsg
        simp [validateLoop, validate_file_size, hw] at hmsg
      · intro e he
        simp [validateLoop, validate_file_size, hw] at he
        exact ⟨dir ++ "/" ++ w.name, he.symm⟩
    · constructor
      · intro msg hmsg
        simp [validateLoop, validate_file_size, hw] at hmsg
        rcases hmsg with h | h
        · exact ⟨dir ++ "/" ++ w.name, h⟩
        · exact ih.1 msg h
      · intro e he
        simp [validateLoop, validate_file_size, hw] at he
        exact ih.2 e he

theorem mainBody_shape (p : String) (t : Target) (limit : Int) :
    (∀ msg ∈ (mainBody p t limit).output, ∃ fp, msg = successMsg fp limit) ∧
    (∀ e, (mainBody p t limit).error = some e →
      (∃ fp, e = Err.fileSizeError fp limit) ∨
      e = Err.valueError (noWheelMsg p) ∨
      e = Err.valueError invalidPathMsg) := by
  cases t with
  | file size =>
    by_cases hsuf : py_suffix (basename p) = ".whl"
    · by_cases hsz : (size : Int) > limit * 1024 * 1024
      · constructor
        · intro msg hmsg
          simp [mainBody, hsuf, validate_file_size, hsz] at hmsg
        · intro e he
          simp [mainBody, hsuf, validate_file_size, hsz] at he
          exact Or.inl ⟨p, by simp [he]⟩
      · constructor
        · intro msg hmsg
          simp [mainBody, hsuf, validate_file_size, hsz] at hmsg
          exact ⟨p, hmsg⟩
        · intro e he
          simp [mainBody, hsuf, validate_file_size, hsz] at he
    · constructor
      · intro msg hmsg
        simp [mainBody, hsuf] at hmsg
      · intro e he
        simp [mainBody, hsuf] at he
        exact Or.inr (Or.inr (by simp [he]))
  | dir children =>
    by_cases hne : (children.filter (fun c => globMatchWhl c.name)).isEmpty = true
    · constructor
      · intro msg hmsg
        simp [mainBody, hne] at hmsg
      · intro e he
        simp [mainBody, hne] at he
        exact Or.inr (Or.inl (by simp [he]))
    · have hloop := mainBody_dir_to_loop p children limit _ rfl
        (by simpa using hne)
      rw [hloop]
      constructor
      · intro msg hmsg
        exact (validateLoop_shape p limit _).1 msg hmsg
      · intro e he
        exact Or.inl ((validateLoop_shape p limit _).2 e he)
  | missing =>
    constructor
    · intro msg hmsg
      simp [mainBody] at hmsg
    · intro e he
      simp [mainBody] at he
      exact Or.inr (Or.inr (by simp [he]))

/-- Claim C10: with a negative limit, the first line is the clamp notice,
every later line is a success line whose reported limit is the clamped 0,
and any `FileSizeError` raised carries limit 0 — so no per-file message or
size error reports the original negative value as the limit. -/
theorem clamped_messages_report_zero (p : String) (t : Target) (limit : Int)
    (h : limit < 0) :
    (main p t limit).output.head? = some (clampMsg limit) ∧
    (∀ msg ∈ (main p t limit).output.tail, ∃ fp, msg = successMsg fp 0) ∧
    (∀ e, (main p t limit).error = some e →
      (∃ fp, e = Err.fileSizeError fp 0) ∨
      e = Err.valueError (noWheelMsg p) ∨
      e = Err.valueError invalidPathMsg) := by
  rw [main_neg p t limit h]
  refine ⟨rfl, ?_, ?_⟩
  · intro msg hmsg
    exact (mainBody_shape p t 0).1 msg (by simpa using hmsg)
  · intro e he
    exact (mainBody_shape p t 0).2 e (by simpa using he)

theorem clamped_messages_report_zero_witness :
    (main "d" (Target.dir [⟨"b.whl", 5000000⟩]) (-3)).output.head? =
      some (clampMsg (-3)) ∧
    (∀ msg ∈ (main "d" (Target.dir [⟨"b.whl", 5000000⟩]) (-3)).output.tail,
      ∃ fp, msg = successMsg fp 0) ∧
    (∀ e, (main "d" (Target.dir [⟨"b.whl", 5000000⟩]) (-3)).error = some e →
      (∃ fp, e = Err.fileSizeError fp 0) ∨
      e = Err.valueError (noWheelMsg "d") ∨
      e = Err.valueError invalidPathMsg) :=
  clamped_messages_report_zero "d" (Target.dir [⟨"b.whl", 5000000⟩]) (-3)
    (by decide)

end ValidateWheelSize
